import Mathlib

/-!
Verification of the deal-submission processing pipeline
(`src/deal_processor.py`) against its natural-language specification.

The Python program is shallowly embedded: pure helpers become Lean
functions, and the stateful pipeline becomes explicit state passing over a
`World` value (the Drive folder/document store, the set of sent emails, the
log, and a trace of collaborator calls), with an `Env` record supplying the
outcomes of the external collaborators (the text-generation HTTP calls, the
text-extraction export, and injected failures of the Drive/Gmail calls).
Fallible Python code (`raise` / `except`) is modelled with `Except`.

External-service behaviour that the repository only consumes is modelled
from the spec where the spec pins it down; every such definition carries a
doc comment starting with `Modelled from the spec:`.
-/

/-- Character class of `GoogleWorkspaceManager._clean_text_for_search`'s
regex `[\s\-\.\,\;\:\|\/\_]` (deal_processor.py line 284): Python whitespace
(modelled over its ASCII members) together with the explicit separator
characters. -/
def isSep (c : Char) : Bool :=
  c = ' ' || c = '\t' || c = '\n' || c = '\r' || c = '\x0b' || c = '\x0c' ||
  c = '-' || c = '.' || c = ',' || c = ';' || c = ':' || c = '|' || c = '/' || c = '_'

/-- Accumulator worker for `splitSeps`: `acc` holds the (reversed) current
run of non-separator characters. -/
def splitSepsAux : List Char → List Char → List (List Char)
  | [], acc => if acc = [] then [] else [acc.reverse]
  | c :: cs, acc =>
    if isSep c then
      if acc = [] then splitSepsAux cs [] else acc.reverse :: splitSepsAux cs []
    else splitSepsAux cs (c :: acc)

/-- The maximal runs of non-separator characters of a character list. This
is `re.split(r'[\s\-\.\,\;\:\|\/\_]+', text)` followed by discarding the
empty fragments, as in `_clean_text_for_search`. -/
def splitSeps (l : List Char) : List (List Char) :=
  splitSepsAux l []

/-- The `','.join(...)` of `_clean_text_for_search`, at the character-list
level. -/
def joinComma : List (List Char) → List Char
  | [] => []
  | [t] => t
  | t :: ts => t ++ ',' :: joinComma ts

/-- Translates `GoogleWorkspaceManager._clean_text_for_search`
(deal_processor.py lines 281-285): split on runs of whitespace and the
separator characters, discard empty fragments, rejoin with `,`. -/
def clean_text_for_search (text : String) : String :=
  ⟨joinComma (splitSeps text.data)⟩

/-- Modelled from the spec: the document store's query-by-name capability
(`findByNameContaining`, spec section 6.3) as used by the duplicate check.
The Drive backend itself is not part of the repository; the spec describes
its `name contains` matching as robust to separator style ("a match key
robust to the separator style backend search engines vary on", spec section
4.1 step 1), which is modelled as tokenized containment: the folder name
matches the search term when the term's separator-delimited tokens occur
consecutively among the name's tokens. -/
def nameContains (name term : String) : Bool :=
  decide (splitSeps term.data <:+: splitSeps name.data)

theorem splitSepsAux_allSep (ys : List Char) :
    ∀ m : List Char, (∀ c ∈ m, isSep c = true) → splitSepsAux (m ++ ys) [] = splitSeps ys := by
  intro m
  induction m with
  | nil => intro _; rfl
  | cons c cs ih =>
    intro h
    have hc : isSep c = true := h c (List.mem_cons_self c cs)
    simp only [List.cons_append, splitSepsAux, hc, if_true, if_pos rfl]
    exact ih fun d hd => h d (List.mem_cons_of_mem c hd)

theorem splitSepsAux_append_sep (m ys : List Char) (hm : m ≠ [])
    (hsep : ∀ c ∈ m, isSep c = true) :
    ∀ (xs acc : List Char),
      splitSepsAux (xs ++ m ++ ys) acc = splitSepsAux xs acc ++ splitSeps ys := by
  intro xs
  induction xs with
  | nil =>
    intro acc
    match m, hm with
    | c :: cs, _ =>
      have hc : isSep c = true := hsep c (List.mem_cons_self c cs)
      have hcs : splitSepsAux (cs ++ ys) [] = splitSeps ys :=
        splitSepsAux_allSep ys cs fun d hd => hsep d (List.mem_cons_of_mem c hd)
      by_cases hacc : acc = []
      · subst hacc
        simp [splitSepsAux, hc, hcs]
      · simp [splitSepsAux, hc, hacc, hcs]
  | cons c cs ih =>
    intro acc
    by_cases hc : isSep c = true
    · by_cases hacc : acc = []
      · subst hacc
        simp only [List.cons_append, splitSepsAux, hc, if_true, if_pos rfl]
        exact ih []
      · simp only [List.cons_append, splitSepsAux, hc, if_true, if_neg hacc]
        exact congrArg (acc.reverse :: ·) (ih [])
    · simp only [List.cons_append, splitSepsAux, hc, if_false, Bool.false_eq_true]
      exact ih (c :: acc)

theorem splitSeps_append_sep (xs m ys : List Char) (hm : m ≠ [])
    (hsep : ∀ c ∈ m, isSep c = true) :
    splitSeps (xs ++ m ++ ys) = splitSeps xs ++ splitSeps ys :=
  splitSepsAux_append_sep m ys hm hsep xs []

theorem splitSepsAux_nonsep :
    ∀ (w : List Char), (∀ c ∈ w, isSep c = false) →
      ∀ acc : List Char,
        splitSepsAux w acc =
          if acc.reverse ++ w = [] then [] else [acc.reverse ++ w] := by
  intro w
  induction w with
  | nil =>
    intro _ acc
    simp only [splitSepsAux, List.append_nil]
    by_cases hacc : acc = []
    · subst hacc; simp
    · simp [hacc, List.reverse_eq_nil_iff]
  | cons c cs ih =>
    intro h acc
    have hc : isSep c = false := h c (List.mem_cons_self c cs)
    simp only [splitSepsAux, hc, Bool.false_eq_true, if_false]
    rw [ih (fun d hd => h d (List.mem_cons_of_mem c hd)) (c :: acc)]
    simp

theorem splitSeps_nonsep (w : List Char) (hw : w ≠ [])
    (h : ∀ c ∈ w, isSep c = false) : splitSeps w = [w] := by
  unfold splitSeps
  rw [splitSepsAux_nonsep w h []]
  simp [hw]

theorem splitSepsAux_elems :
    ∀ (l acc : List Char), (∀ c ∈ acc, isSep c = false) →
      ∀ t ∈ splitSepsAux l acc, t ≠ [] ∧ ∀ c ∈ t, isSep c = false := by
  intro l
  induction l with
  | nil =>
    intro acc hacc t ht
    by_cases h : acc = []
    · subst h; simp [splitSepsAux] at ht
    · simp [splitSepsAux, h] at ht
      subst ht
      refine ⟨by simpa [List.reverse_eq_nil_iff] using h, ?_⟩
      intro c hc
      exact hacc c (List.mem_reverse.mp hc)
  | cons c cs ih =>
    intro acc hacc t ht
    by_cases hc : isSep c = true
    · by_cases h : acc = []
      · subst h
        simp only [splitSepsAux, hc, if_true, if_pos rfl] at ht
        exact ih [] (by simp) t ht
      · simp only [splitSepsAux, hc, if_true, if_neg h] at ht
        rcases List.mem_cons.mp ht with ht | ht
        · subst ht
          refine ⟨by simpa [List.reverse_eq_nil_iff] using h, ?_⟩
          intro d hd
          exact hacc d (List.mem_reverse.mp hd)
        · exact ih [] (by simp) t ht
    · have hc' : isSep c = false := by
        cases hcc : isSep c
        · rfl
        · exact absurd hcc hc
      simp only [splitSepsAux, hc', Bool.false_eq_true, if_false] at ht
      refine ih (c :: acc) ?_ t ht
      intro d hd
      rcases List.mem_cons.mp hd with hd | hd
      · subst hd; exact hc'
      · exact hacc d hd

theorem splitSeps_elems (l : List Char) :
    ∀ t ∈ splitSeps l, t ≠ [] ∧ ∀ c ∈ t, isSep c = false :=
  splitSepsAux_elems l [] (by simp)

theorem splitSeps_joinComma :
    ∀ ts : List (List Char), (∀ t ∈ ts, t ≠ [] ∧ ∀ c ∈ t, isSep c = false) →
      splitSeps (joinComma ts) = ts := by
  intro ts
  induction ts with
  | nil => intro _; rfl
  | cons t rest ih =>
    intro h
    have ht := h t (List.mem_cons_self t rest)
    match rest, ih with
    | [], _ =>
      simpa [joinComma] using splitSeps_nonsep t ht.1 ht.2
    | u :: us, ih =>
      have hrest : splitSeps (joinComma (u :: us)) = u :: us :=
        ih fun x hx => h x (List.mem_cons_of_mem t hx)
      have hstep : splitSeps (t ++ [','] ++ joinComma (u :: us)) =
          splitSeps t ++ splitSeps (joinComma (u :: us)) := by
        refine splitSeps_append_sep t [','] (joinComma (u :: us)) (by simp) ?_
        intro c hc
        simp only [List.mem_singleton] at hc
        subst hc
        decide
      have hjoin : joinComma (t :: u :: us) = t ++ [','] ++ joinComma (u :: us) := by
        simp [joinComma]
      rw [hjoin, hstep, hrest, splitSeps_nonsep t ht.1 ht.2]
      rfl

/-- Cleaning a project name does not change its separator-token
decomposition: the match key re-splits to the original fragments. -/
theorem splitSeps_clean (p : String) :
    splitSeps (clean_text_for_search p).data = splitSeps p.data :=
  splitSeps_joinComma (splitSeps p.data) (splitSeps_elems p.data)

/-- The duplicate-check search term `f"{email},{clean_name}"` token-matches
the folder name `f"{email} - {project_name}"` that `create_project_structure`
uses for the main project folder. -/
theorem searchTerm_matches_folderName (email project : String) :
    nameContains (email ++ " - " ++ project)
      (email ++ "," ++ clean_text_for_search project) = true := by
  have hterm : (email ++ "," ++ clean_text_for_search project).data =
      email.data ++ [','] ++ (clean_text_for_search project).data := by
    simp [String.data_append]
  have hname : (email ++ " - " ++ project).data =
      email.data ++ [' ', '-', ' '] ++ project.data := by
    simp [String.data_append]
  have h1 : splitSeps (email.data ++ [','] ++ (clean_text_for_search project).data) =
      splitSeps email.data ++ splitSeps project.data := by
    rw [splitSeps_append_sep email.data [','] _ (by simp) (by intro c hc; simp at hc; subst hc; decide)]
    rw [splitSeps_clean]
  have h2 : splitSeps (email.data ++ [' ', '-', ' '] ++ project.data) =
      splitSeps email.data ++ splitSeps project.data := by
    refine splitSeps_append_sep email.data [' ', '-', ' '] project.data (by simp) ?_
    intro c hc
    fin_cases hc <;> decide
  rw [nameContains, hterm, hname, h1, h2]
  simp

/-- A project name assembled from non-separator fragments with a chosen
separator string between each consecutive pair: `joinFrags w0 [(g1, w1),
(g2, w2)]` is `w0 ++ g1 ++ w1 ++ g2 ++ w2`. -/
def joinFrags : String → List (String × String) → String
  | w0, [] => w0
  | w0, (g, w) :: rest => w0 ++ g ++ joinFrags w rest

theorem joinFrags_data (w0 : String) (rest : List (String × String)) :
    (joinFrags w0 rest).data =
      w0.data ++ (rest.map fun gw => gw.1.data ++ gw.2.data).flatten := by
  induction rest generalizing w0 with
  | nil => simp [joinFrags]
  | cons gw rest ih =>
    obtain ⟨g, w⟩ := gw
    simp [joinFrags, String.data_append, ih w, List.append_assoc]

theorem splitSeps_joinFrags (w0 : String) (rest : List (String × String))
    (hw0 : w0.data ≠ [] ∧ ∀ c ∈ w0.data, isSep c = false)
    (hrest : ∀ gw ∈ rest,
      (gw.1.data ≠ [] ∧ ∀ c ∈ gw.1.data, isSep c = true) ∧
      (gw.2.data ≠ [] ∧ ∀ c ∈ gw.2.data, isSep c = false)) :
    splitSeps (joinFrags w0 rest).data = w0.data :: rest.map (fun gw => gw.2.data) := by
  induction rest generalizing w0 with
  | nil =>
    simpa [joinFrags] using splitSeps_nonsep w0.data hw0.1 hw0.2
  | cons gw rest ih =>
    obtain ⟨g, w⟩ := gw
    have hgw := hrest (g, w) (List.mem_cons_self _ _)
    have hdata : (joinFrags w0 ((g, w) :: rest)).data =
        w0.data ++ g.data ++ (joinFrags w rest).data := by
      simp [joinFrags, String.data_append]
    rw [hdata, splitSeps_append_sep w0.data g.data _ hgw.1.1 hgw.1.2,
      splitSeps_nonsep w0.data hw0.1 hw0.2,
      ih w hgw.2 (fun x hx => hrest x (List.mem_cons_of_mem _ hx))]
    rfl

/-- Translates the `DealSubmission` dataclass (deal_processor.py lines
38-46). -/
structure DealSubmission where
  email : String
  first_name : String
  project_name : String
  document_file : String
  submission_id : Option String := none
  created_at : Option String := none

/-- Translates the `ProcessingResult` dataclass (deal_processor.py lines
48-54). -/
structure ProcessingResult where
  project_folder_id : String
  underwrite_doc_id : String
  kiq_doc_id : String
  duplicate_detected : Bool := false
deriving DecidableEq

/-- The validated configuration dictionary produced by
`DealProcessor._load_config` (deal_processor.py lines 569-580). -/
structure Config where
  anthropic_api_key : String
  google_credentials_path : String
  base_folder_id : String
  from_email : String
  internal_notification_emails : List String
  company_name : String
  signature_name : String
  signature_title : String
  phone_number : String
  support_url : String

/-- Outcome of one HTTP POST of `AnthropicAPI` to the messages endpoint:
either the transport raises (connection error / timeout), or a response
arrives with a status code and, when the JSON body is well formed, the
`result['content'][0]['text']` string (`none` models a malformed body whose
extraction raises). -/
inductive ApiOutcome where
  | transportError
  | response (status : Nat) (extracted : Option String)

/-- Whether the `try` block of an `AnthropicAPI` call reaches its `except`
handler: transport error, `raise_for_status` (HTTP 4xx/5xx), or malformed
response body. -/
def ApiOutcome.failed : ApiOutcome → Bool
  | .transportError => true
  | .response status extracted => (decide (400 ≤ status) && decide (status < 600)) || extracted.isNone

/-- The string an `AnthropicAPI` call returns, given the HTTP outcome and
the task's fallback placeholder (deal_processor.py lines 148-157 and
212-221): the extracted text on success, the placeholder whenever the
`except` handler runs. -/
def apiCallResult : ApiOutcome → String → String
  | .transportError, fallback => fallback
  | .response status extracted, fallback =>
    if 400 ≤ status ∧ status < 600 then fallback
    else match extracted with
      | some text => text
      | none => fallback

/-- Outcome of the Drive plain-text export used by
`extract_document_text`: a successful download of the raw text, a file
with no `text/plain` export link, or a raised exception. -/
inductive ExtractOutcome where
  | exportOk (raw : String)
  | noExportLink
  | extractError

/-- Environment of collaborator outcomes for one pipeline run: the ids the
backend assigns (in call order), the outcome of each generation call and of
the text extraction, and injectable failures of the Drive/Gmail calls
(`none`/`false` = the call succeeds; a `some e` carries the raw error
text of the exception the collaborator raises). -/
structure Env where
  idOf : Nat → String
  underwriteOutcome : ApiOutcome
  kiqOutcome : ApiOutcome
  extractOutcome : ExtractOutcome
  listError : Bool := false
  createFolderError : Option String := none
  uploadError : Option String := none
  createDocError : Option String := none
  clientEmailError : Bool := false
  internalEmailError : Bool := false
  duplicateEmailError : Bool := false

/-- One file of the Drive store: folders and documents, each with its
backend id, display name, parent folder id, and (for documents created with
content) body text. -/
structure DriveFile where
  id : String
  name : String
  parent : String
  isFolder : Bool
  content : String := ""
deriving DecidableEq

/-- One email handed to the Gmail send call. The source base64-encodes a
MIME message (`_create_message_raw`); the recipient, subject and body are
modelled directly, before encoding. -/
structure EmailMsg where
  toAddr : String
  subject : String
  body : String
deriving DecidableEq

/-- Trace of the externally observable collaborator calls a run performs,
used to state that a branch performs no folder creation, upload,
extraction, generation or document creation. A send is recorded when it
succeeds. -/
inductive CallEvent where
  | listQuery (parent term : String)
  | createFolder (name parent : String)
  | uploadFile (name parent : String)
  | extractTextCall (fileId : String)
  | apiCall (prompt : String)
  | createDoc (title : String)
  | sendMail (toAddr : String)
deriving DecidableEq

/-- The mutable external world a run acts on. All lists are most recent
first. `nextId` indexes into `Env.idOf` for the next backend-assigned id. -/
structure World where
  files : List DriveFile := []
  sent : List EmailMsg := []
  logs : List String := []
  calls : List CallEvent := []
  nextId : Nat := 0

/-- Appends a log line (`logger.info` / `logger.error` /
`logger.warning`). -/
def World.log (w : World) (m : String) : World :=
  { w with logs := m :: w.logs }

/-- Whether the duplicate-check Drive query returns at least one file: a
file directly under the base folder whose name contains (in the modelled
tokenized sense) the search term (deal_processor.py lines 266-275). -/
def duplicate_found (cfg : Config) (email project_name : String)
    (files : List DriveFile) : Bool :=
  files.any fun f =>
    decide (f.parent = cfg.base_folder_id) &&
      nameContains f.name (email ++ "," ++ clean_text_for_search project_name)

/-- Translates `GoogleWorkspaceManager.check_duplicate_project`
(deal_processor.py lines 261-279): build the search term from the email and
the cleaned project name, query Drive, and return whether any file matched;
any exception is logged and degrades to `False`. -/
def check_duplicate_project (env : Env) (cfg : Config)
    (email project_name : String) (w : World) : Bool × World :=
  let search_term := email ++ "," ++ clean_text_for_search project_name
  let w := { w with calls := .listQuery cfg.base_folder_id search_term :: w.calls }
  if env.listError then (false, w.log "Duplicate check failed")
  else (duplicate_found cfg email project_name w.files, w)

/-- One `drive_service.files().create` call for a folder: consumes a fresh
backend id and records the new folder. -/
def driveCreateFolder (env : Env) (nm parent : String) (w : World) : String × World :=
  let id := env.idOf w.nextId
  (id, { w with nextId := w.nextId + 1,
                files := ⟨id, nm, parent, true, ""⟩ :: w.files,
                calls := .createFolder nm parent :: w.calls })

/-- Translates `GoogleWorkspaceManager.create_project_structure`
(deal_processor.py lines 287-325): create the main project folder
`f"{email} - {project_name}"` under the base folder and the
`PRE-UNDERWRITE` and `KIQ SUBMISSIONS` subfolders under it; on a Drive
error, log and re-raise (the raw error propagates). -/
def create_project_structure (env : Env) (cfg : Config) (s : DealSubmission)
    (w : World) : Except String (String × String × String) × World :=
  match env.createFolderError with
  | some e => (.error e, w.log ("Failed to create project structure: " ++ e))
  | none =>
    let (project_folder_id, w) :=
      driveCreateFolder env (s.email ++ " - " ++ s.project_name) cfg.base_folder_id w
    let (preunderwrite_id, w) := driveCreateFolder env "PRE-UNDERWRITE" project_folder_id w
    let (kiq_id, w) := driveCreateFolder env "KIQ SUBMISSIONS" project_folder_id w
    (.ok (project_folder_id, preunderwrite_id, kiq_id),
      w.log ("Created project structure for " ++ s.project_name))

/-- Translates `GoogleWorkspaceManager.upload_document` (deal_processor.py
lines 327-360): upload the source file into the given folder under the
given name; on a Drive error, log and re-raise. The word-processor
conversion flag computed from the file extension is not modelled: it
affects no observable tracked here (ids, names, contents, messages). -/
def upload_document (env : Env) (file_path folder_id filename : String)
    (w : World) : Except String String × World :=
  match env.uploadError with
  | some e => (.error e, w.log ("Failed to upload document: " ++ e))
  | none =>
    let id := env.idOf w.nextId
    (.ok id, { w with nextId := w.nextId + 1,
                      files := ⟨id, filename, folder_id, false, ""⟩ :: w.files,
                      calls := .uploadFile filename folder_id :: w.calls })

/-- Second argument of `re.sub(r'[\n\r\t\\"]+', ' ', text)` in
`extract_document_text`, as a character class. -/
def isJunkChar (c : Char) : Bool :=
  c = '\n' || c = '\r' || c = '\t' || c = '\\' || c = '"'

/-- Python `\s` over its ASCII members, for the whitespace-collapsing pass
and `.strip()`. -/
def isPySpace (c : Char) : Bool :=
  c = ' ' || c = '\t' || c = '\n' || c = '\r' || c = '\x0b' || c = '\x0c'

/-- Worker for `collapseRuns`: the Bool records whether the scan stands
inside a run already replaced by a space. -/
def collapseRunsAux (p : Char → Bool) : List Char → Bool → List Char
  | [], _ => []
  | c :: cs, inRun =>
    if p c then
      if inRun then collapseRunsAux p cs true else ' ' :: collapseRunsAux p cs true
    else c :: collapseRunsAux p cs false

/-- Replaces each maximal run of characters satisfying `p` by one space:
one `re.sub(r'[...]+', ' ', text)` pass. -/
def collapseRuns (p : Char → Bool) (l : List Char) : List Char :=
  collapseRunsAux p l false

/-- Python `str.strip()` over the modelled whitespace class. -/
def stripSpaces (l : List Char) : List Char :=
  ((l.dropWhile isPySpace).reverse.dropWhile isPySpace).reverse

/-- The text cleaning of `extract_document_text` (deal_processor.py lines
419-422): collapse runs of `[\n\r\t\\"]` to spaces, collapse whitespace
runs, strip. -/
def cleanExtracted (raw : String) : String :=
  ⟨stripSpaces (collapseRuns isPySpace (collapseRuns isJunkChar raw.data))⟩

/-- The text `extract_document_text` hands downstream: the cleaned
`text/plain` export when one exists, the sentinel
`"Document text extraction failed"` when no export link exists,
`"Text extraction error"` when the attempt raises. -/
def extractResultText : ExtractOutcome → String
  | .exportOk raw => cleanExtracted raw
  | .noExportLink => "Document text extraction failed"
  | .extractError => "Text extraction error"

/-- The log entries of `extract_document_text`: a warning when no export
link exists, an error entry when the attempt raises. -/
def extractLog : ExtractOutcome → List String
  | .exportOk _ => []
  | .noExportLink => ["Could not extract text from document"]
  | .extractError => ["Text extraction failed"]

/-- Translates `GoogleWorkspaceManager.extract_document_text`
(deal_processor.py lines 400-431): returns `extractResultText` for the
export outcome, logging per `extractLog`. Never raises. -/
def extract_document_text (env : Env) (file_id : String) (w : World) :
    String × World :=
  (extractResultText env.extractOutcome,
    { w with calls := .extractTextCall file_id :: w.calls,
             logs := extractLog env.extractOutcome ++ w.logs })

/-- The fixed placeholder `generate_underwrite_analysis` returns when its
call fails (deal_processor.py line 157). -/
def analysisFailureText : String := "Analysis generation failed - please review manually."

/-- The fixed placeholder `generate_kiq_questions` returns when its call
fails (deal_processor.py line 221). -/
def kiqFailureText : String := "Question generation failed - please create manually."

/-- The underwrite prompt up to the interpolated `{document_text}`
(deal_processor.py line 71). -/
def underwritePromptPre : String :=
  "As an industry expert conducting initial pre-due diligence screening, provide only a " ++
  "direct structured analysis without any introductory sentences for the following " ++
  "investment opportunity. Begin immediately with the analysis sections using the " ++
  "information from these quotations and your comprehensive market knowledge:\n\n"

/-- The underwrite prompt after the interpolated `{document_text}`
(deal_processor.py lines 75-140). -/
def underwritePromptPost : String :=
  "\n\n1. LACK OF DURABLE COMPETITIVE ADVANTAGES\n\n" ++
  "Technological Differentiation\n- [Point 1]\n- [Point 2]\n- [Point 3]\n\n" ++
  "Market Position\n- [Point 1]\n- [Point 2]\n- [Point 3]\n\n" ++
  "Economic Moat Factors\n- [Point 1]\n- [Point 2]\n- [Point 3]\n\n" ++
  "Revenue Security\n- [Point 1]\n- [Point 2]\n- [Point 3]\n\n" ++
  "Regulatory & Environmental\n- [Point 1]\n- [Point 2]\n- [Point 3]\n\n" ++
  "2. INVESTOR RED FLAGS\n\n" ++
  "Investment Structure\n- [Point 1]\n- [Point 2]\n- [Point 3]\n\n" ++
  "Management & Execution\n- [Point 1]\n- [Point 2]\n- [Point 3]\n\n" ++
  "Financial Considerations\n- [Point 1]\n- [Point 2]\n- [Point 3]\n\n" ++
  "Market & Competition\n- [Point 1]\n- [Point 2]\n- [Point 3]\n\n" ++
  "Due Diligence Priorities\n- [Point 1]\n- [Point 2]\n- [Point 3]\n\n" ++
  "CONCLUSION\n\n" ++
  "Provide a 2-3 sentence conclusion highlighting primary competitive vulnerabilities, " ++
  "most critical investor concerns, and recommendation on proceeding with full due " ++
  "diligence. Format as a single paragraph without bullet points.\n\n" ++
  "Formatting Rules:\n- Use consistent hyphen (-) for all bullet points\n" ++
  "- Leave one blank line between major sections\n" ++
  "- No asterisks or other bullet point styles\n" ++
  "- No indentation for bullet points\n" ++
  "- Capitalize all major section headers\n" ++
  "- Use one blank line between subsections\n" ++
  "- Format conclusion as a single paragraph without bullets"

/-- The prompt of `generate_underwrite_analysis` (deal_processor.py lines
71-140), with the document text interpolated. -/
def underwritePrompt (document_text : String) : String :=
  underwritePromptPre ++ document_text ++ underwritePromptPost

/-- The first fixed mandatory KIQ question (deal_processor.py line 173):
compensation terms. -/
def mandatoryQ1 : String :=
  "What are they offering as compensation for the contribution of our efforts, " ++
  "networks and capital introduction sources?"

/-- The second fixed mandatory KIQ question (deal_processor.py line 176):
open-litigation status. -/
def mandatoryQ2 : String :=
  "Does the company have any open litigation, or threats of litigation for any " ++
  "unresolved open matters as disputes with counter parts on agreements?"

/-- The KIQ prompt up to the interpolated `{underwrite_text}`
(deal_processor.py line 167). -/
def kiqPromptPre : String :=
  "Based on the following pre-due diligence analysis findings:\n\n"

/-- The KIQ prompt between the interpolated analysis and the two mandatory
questions (deal_processor.py line 171). -/
def kiqPromptMid : String :=
  "\n\nGenerate exactly 15 due diligence questions, including the two mandatory " ++
  "questions below. Each question should be followed by an 'A:' line for responses. " ++
  "Begin with these mandatory questions:\n\n"

/-- The KIQ prompt after the mandatory questions (deal_processor.py lines
179-204). -/
def kiqPromptRest : String :=
  "Generate the remaining 13 questions following this distribution:\n\n" ++
  "WEAKNESSES INVESTIGATION (3 questions)\n" ++
  "- Questions targeting competitive disadvantages identified in the analysis\n" ++
  "- Queries about gaps in market positioning\n" ++
  "- Questions about operational vulnerabilities\n\n" ++
  "COMPETITIVE ADVANTAGE VERIFICATION (3 questions)\n" ++
  "- Questions challenging claimed market differentiators\n" ++
  "- Queries about sustainability of advantages\n" ++
  "- Questions about defensive moat strength\n\n" ++
  "FINANCIAL SCRUTINY (3 questions)\n" ++
  "- Questions about projection assumptions\n" ++
  "- Queries about capital structure decisions\n" ++
  "- Questions about revenue model sustainability\n\n" ++
  "RISK MITIGATION (2 questions)\n" ++
  "- Questions about identified risk factors\n" ++
  "- Questions about risk management strategies\n\n" ++
  "DUE DILIGENCE GAPS (2 questions)\n" ++
  "- Questions about missing critical information\n" ++
  "- Questions about verification needs\n\n" ++
  "Format all 15 questions as a single numbered list (1-15), each followed by " ++
  "'A:' on a new line. Begin immediately with questions without any introduction " ++
  "or context statements."

/-- The prompt of `generate_kiq_questions` (deal_processor.py lines
167-204), with the underwrite analysis interpolated. -/
def kiqPrompt (underwrite_text : String) : String :=
  kiqPromptPre ++ underwrite_text ++ kiqPromptMid ++
  "1. " ++ mandatoryQ1 ++ "\nA:\n\n2. " ++ mandatoryQ2 ++ "\nA:\n\n" ++ kiqPromptRest

/-- Translates `AnthropicAPI.generate_underwrite_analysis`
(deal_processor.py lines 63-157): POST the prompt built from the document
text; return the response text, or the fixed analysis placeholder when the
call fails (logging the failure). Never raises. -/
def generate_underwrite_analysis (env : Env) (document_text : String)
    (w : World) : String × World :=
  (apiCallResult env.underwriteOutcome analysisFailureText,
    { w with calls := .apiCall (underwritePrompt document_text) :: w.calls,
             logs := (if env.underwriteOutcome.failed then ["Underwrite analysis failed"]
                      else []) ++ w.logs })

/-- Translates `AnthropicAPI.generate_kiq_questions` (deal_processor.py
lines 159-221): POST the prompt built from the underwrite text; return the
response text, or the fixed question placeholder when the call fails
(logging the failure). Never raises. -/
def generate_kiq_questions (env : Env) (underwrite_text : String)
    (w : World) : String × World :=
  (apiCallResult env.kiqOutcome kiqFailureText,
    { w with calls := .apiCall (kiqPrompt underwrite_text) :: w.calls,
             logs := (if env.kiqOutcome.failed then ["KIQ generation failed"]
                      else []) ++ w.logs })

/-- Translates `GoogleWorkspaceManager.create_document` (deal_processor.py
lines 362-398): create a Google Doc with the given title, insert the
content, and move it into the folder; on an error, log and re-raise. -/
def create_document (env : Env) (title content folder_id : String)
    (w : World) : Except String String × World :=
  match env.createDocError with
  | some e => (.error e, w.log ("Failed to create document: " ++ e))
  | none =>
    let id := env.idOf w.nextId
    (.ok id, { w with nextId := w.nextId + 1,
                      files := ⟨id, title, folder_id, false, content⟩ :: w.files,
                      calls := .createDoc title :: w.calls })

/-- Body of the client success email (deal_processor.py lines 438-455),
with the configuration display fields and the two document links
interpolated. -/
def clientEmailBody (cfg : Config) (s : DealSubmission)
    (underwrite_link kiq_link : String) : String :=
  "Hi " ++ s.first_name ++ ",\n\n" ++
  "Thank you for your submission. I'd like to provide you with two important " ++
  "documents which were built by our Project Optimization Modules for your review " ++
  "and consideration:\n\n" ++
  "The first attachment is our \"" ++ cfg.company_name ++ " Underwrite\" document, " ++
  "which presents a hyper-critical analysis of your submitted project. We've " ++
  "specifically designed this analysis to mirror the scrutinizing perspective that " ++
  "potential investors would likely take when evaluating your deal. This thorough " ++
  "examination should provide valuable insights into how your project might be " ++
  "perceived by investment stakeholders.\n\n" ++
  "Additionally, you'll find the \"KIQ_1\" document which contains essential " ++
  "questions for your team to address regarding the deal. \n\n" ++
  "Once you've completed the KIQ (Key Investor Questions) worksheet, if you're " ++
  "interested in learning more about our services and potentially engaging with our " ++
  "full suite of Project Optimization Modules, we would be happy to schedule a call " ++
  "to discuss next steps.\n\n" ++
  cfg.company_name ++ " Underwrite Analysis: " ++ underwrite_link ++ "\n\n" ++
  "Key Investor Questions (KIQ_1): " ++ kiq_link ++ "\n\n" ++
  "Best regards,\n\n" ++
  cfg.signature_name ++ " | " ++ cfg.signature_title ++ " | " ++ cfg.company_name ++
  "\n" ++ cfg.phone_number

/-- Translates `GoogleWorkspaceManager.send_client_email` (deal_processor.py
lines 433-470): send the success email with both document links to the
submitter; any failure is logged and swallowed. -/
def send_client_email (env : Env) (cfg : Config) (s : DealSubmission)
    (underwrite_link kiq_link : String) (w : World) : World :=
  { w with
    sent := (if env.clientEmailError then []
             else [⟨s.email, "Your " ++ cfg.company_name ++ " Deal Submission",
                    clientEmailBody cfg s underwrite_link kiq_link⟩]) ++ w.sent,
    calls := (if env.clientEmailError then [] else [.sendMail s.email]) ++ w.calls,
    logs := (if env.clientEmailError then "Failed to send client email"
             else "Sent client email to " ++ s.email) :: w.logs }

/-- Body of the internal notification email (deal_processor.py lines
478-486). -/
def internalBody (s : DealSubmission)
    (project_link underwrite_link kiq_link : String) : String :=
  "New Deal Submission from: " ++ s.email ++
  "\n\nProject Name: " ++ s.project_name ++
  "\n\nUnderwriting Report: " ++ underwrite_link ++
  "\n\nKIQ's: " ++ kiq_link ++
  "\n\nProject Folder: " ++ project_link

/-- Translates `GoogleWorkspaceManager.send_internal_notification`
(deal_processor.py lines 472-504): send the NEW DEAL SUBMITTED message to
every configured internal addressee; any failure is logged and swallowed.
The order of the batch inside `sent` is not significant. -/
def send_internal_notification (env : Env) (cfg : Config) (s : DealSubmission)
    (project_link underwrite_link kiq_link : String) (w : World) : World :=
  { w with
    sent := (if env.internalEmailError then []
             else cfg.internal_notification_emails.map fun addr =>
                    (⟨addr, "NEW DEAL SUBMITTED",
                      internalBody s project_link underwrite_link kiq_link⟩ : EmailMsg))
            ++ w.sent,
    calls := (if env.internalEmailError then []
              else cfg.internal_notification_emails.map CallEvent.sendMail) ++ w.calls,
    logs := (if env.internalEmailError then "Failed to send internal notification"
             else "Sent internal notifications") :: w.logs }

/-- Body of the duplicate notice (deal_processor.py lines 511-519). -/
def duplicateEmailBody (cfg : Config) (s : DealSubmission) : String :=
  "Dear " ++ s.first_name ++ ",\n\n" ++
  "We've detected that you've already submitted a project with this name. To " ++
  "maintain accurate records in our system, please submit each project only " ++
  "once.\n\n" ++
  "If you believe this is an error or need to submit an updated version, please " ++
  "contact our support team at " ++ cfg.support_url ++ ".\n\n" ++
  "Best regards,\n\n" ++ cfg.company_name

/-- Translates `GoogleWorkspaceManager.send_duplicate_notification`
(deal_processor.py lines 506-533): send the duplicate notice to the
submitter; any failure is logged and swallowed. -/
def send_duplicate_notification (env : Env) (cfg : Config) (s : DealSubmission)
    (w : World) : World :=
  { w with
    sent := (if env.duplicateEmailError then []
             else [⟨s.email,
                    "Duplicate Project Submission Detected - " ++ cfg.company_name,
                    duplicateEmailBody cfg s⟩]) ++ w.sent,
    calls := (if env.duplicateEmailError then [] else [.sendMail s.email]) ++ w.calls,
    logs := (if env.duplicateEmailError then "Failed to send duplicate notification"
             else "Sent duplicate notification to " ++ s.email) :: w.logs }

/-- Translates `DealProcessor.process_submission` (deal_processor.py lines
591-661): duplicate check; on a hit, duplicate notice and a duplicate
result with empty identifiers; otherwise structure creation, original
upload, text extraction, the two chained generation calls with their
document materializations, link assembly, notification dispatch, and a
result carrying the three identifiers. Any exception from a collaborator is
logged as `"Failed to process submission: ..."` and re-raised unchanged
(the source's `except ... raise`). -/
def process_submission (env : Env) (cfg : Config) (s : DealSubmission)
    (document_path : String) (w : World) : Except String ProcessingResult × World :=
  let w := w.log ("Processing submission for " ++ s.project_name)
  let (isDup, w) := check_duplicate_project env cfg s.email s.project_name w
  if isDup then
    let w := w.log ("Duplicate detected for " ++ s.project_name)
    let w := send_duplicate_notification env cfg s w
    (.ok ⟨"", "", "", true⟩, w)
  else
    match create_project_structure env cfg s w with
    | (.error e, w) => (.error e, w.log ("Failed to process submission: " ++ e))
    | (.ok (project_folder_id, preunderwrite_folder_id, kiq_folder_id), w) =>
      match upload_document env document_path preunderwrite_folder_id
          (s.email ++ " - " ++ s.project_name ++ " - Original") w with
      | (.error e, w) => (.error e, w.log ("Failed to process submission: " ++ e))
      | (.ok uploaded_doc_id, w) =>
        let w := w.log "Extracting document text..."
        let (document_text, w) := extract_document_text env uploaded_doc_id w
        let w := w.log "Generating underwriting analysis..."
        let (underwrite_analysis, w) := generate_underwrite_analysis env document_text w
        match create_document env
            (s.email ++ " - " ++ s.project_name ++ " - " ++ cfg.company_name ++ " Underwrite")
            underwrite_analysis preunderwrite_folder_id w with
        | (.error e, w) => (.error e, w.log ("Failed to process submission: " ++ e))
        | (.ok underwrite_doc_id, w) =>
          let w := w.log "Generating KIQ questions..."
          let (kiq_questions, w) := generate_kiq_questions env underwrite_analysis w
          match create_document env
              (s.email ++ " - " ++ s.project_name ++ " - KIQ_1")
              kiq_questions kiq_folder_id w with
          | (.error e, w) => (.error e, w.log ("Failed to process submission: " ++ e))
          | (.ok kiq_doc_id, w) =>
            let project_link := "https://drive.google.com/drive/folders/" ++ project_folder_id
            let underwrite_link := "https://docs.google.com/document/d/" ++ underwrite_doc_id
            let kiq_link := "https://docs.google.com/document/d/" ++ kiq_doc_id
            let w := send_client_email env cfg s underwrite_link kiq_link w
            let w := send_internal_notification env cfg s project_link underwrite_link kiq_link w
            let w := w.log ("Successfully processed submission for " ++ s.project_name)
            (.ok ⟨project_folder_id, underwrite_doc_id, kiq_doc_id, false⟩, w)

/-- Contents of `config.json` as `DealProcessor._load_config` reads it:
every key optional (`config.get`). -/
structure ConfigFile where
  anthropic_api_key : Option String := none
  google_credentials_path : Option String := none
  base_folder_id : Option String := none
  from_email : Option String := none
  internal_notification_emails : Option (List String) := none
  company_name : Option String := none
  signature_name : Option String := none
  signature_title : Option String := none
  phone_number : Option String := none
  support_url : Option String := none

/-- The environment variables `_load_config` consults (`os.getenv`):
`none` models an unset variable. -/
structure EnvVars where
  anthropic_api_key : Option String := none
  google_credentials_path : Option String := none
  base_folder_id : Option String := none
  from_email : Option String := none

/-- Python `os.getenv(KEY, config.get(key))`: the environment value when
the variable is set, otherwise the config-file value. -/
def envOverride (envv filev : Option String) : Option String :=
  match envv with
  | some v => some v
  | none => filev

/-- Python truthiness test `not final_config.get(key)` on an optional
string: missing, or present but empty. -/
def falsyOpt : Option String → Bool
  | none => true
  | some s => decide (s = "")

/-- The `required_fields` list of `_load_config` (deal_processor.py line
583), in source order. -/
def requiredKeys : List String := ["anthropic_api_key", "base_folder_id", "from_email"]

/-- The value `final_config` ends up holding for a required key, after the
environment override (deal_processor.py lines 569-573). -/
def requiredValue (ev : EnvVars) (cf : ConfigFile) (k : String) : Option String :=
  if k = "anthropic_api_key" then envOverride ev.anthropic_api_key cf.anthropic_api_key
  else if k = "base_folder_id" then envOverride ev.base_folder_id cf.base_folder_id
  else if k = "from_email" then envOverride ev.from_email cf.from_email
  else none

/-- The `missing` list of `_load_config` (deal_processor.py line 584): the
required keys whose final value is falsy, in source order. -/
def missingKeys (ev : EnvVars) (cf : ConfigFile) : List String :=
  requiredKeys.filter fun k => falsyOpt (requiredValue ev cf k)

/-- A single-quote character as a string, for Python `repr` output. -/
def pySq : String := String.singleton (Char.ofNat 39)

/-- The comma-separated quoted items of a Python list `repr`. -/
def pyReprInner : List String → String
  | [] => ""
  | [s] => pySq ++ s ++ pySq
  | s :: rest => pySq ++ s ++ pySq ++ ", " ++ pyReprInner rest

/-- Python `repr` of a list of strings, as it appears interpolated into the
`ValueError` message `f"Missing required configuration: {missing}"`. -/
def pyStrListRepr (l : List String) : String :=
  "[" ++ pyReprInner l ++ "]"

/-- The `ValueError` message of `_load_config` (deal_processor.py line
587). -/
def missingMsg (missing : List String) : String :=
  "Missing required configuration: " ++ pyStrListRepr missing

/-- Translates `DealProcessor._load_config` (deal_processor.py lines
560-589): build `final_config` from the config file with environment
overrides for the three overridable keys and the stated defaults for the
optional ones, then fail with the `ValueError` naming every missing
required key, or return the configuration. `DealProcessor.__init__` runs
this first, so an error here means no pipeline collaborator is constructed
and no run begins. -/
def load_config (ev : EnvVars) (file : Option ConfigFile) : Except String Config :=
  let cf := file.getD {}
  match missingKeys ev cf with
  | [] => .ok
    { anthropic_api_key := (requiredValue ev cf "anthropic_api_key").getD ""
      google_credentials_path :=
        (envOverride ev.google_credentials_path
          (some (cf.google_credentials_path.getD "credentials.json"))).getD ""
      base_folder_id := (requiredValue ev cf "base_folder_id").getD ""
      from_email := (requiredValue ev cf "from_email").getD ""
      internal_notification_emails := cf.internal_notification_emails.getD []
      company_name := cf.company_name.getD "Your Company"
      signature_name := cf.signature_name.getD "Your Name"
      signature_title := cf.signature_title.getD "Your Title"
      phone_number := cf.phone_number.getD "Your Phone Number"
      support_url := cf.support_url.getD "https://your-website.com/contact" }
  | _ => .error (missingMsg (missingKeys ev cf))

/-- Helper: a run whose duplicate check hits (and whose list call and
duplicate notice do not fail) returns the duplicate marker result and
touches only the log, the call trace (one list query, one send) and the
sent mail (exactly one duplicate notice to the submitter). -/
theorem process_submission_dup (env : Env) (cfg : Config) (s : DealSubmission)
    (dp : String) (w : World)
    (hdup : duplicate_found cfg s.email s.project_name w.files = true)
    (hlist : env.listError = false)
    (hmail : env.duplicateEmailError = false) :
    process_submission env cfg s dp w =
      (.ok ⟨"", "", "", true⟩,
        { w with
          sent := ⟨s.email,
                   "Duplicate Project Submission Detected - " ++ cfg.company_name,
                   duplicateEmailBody cfg s⟩ :: w.sent,
          calls := .sendMail s.email ::
                   .listQuery cfg.base_folder_id
                     (s.email ++ "," ++ clean_text_for_search s.project_name) :: w.calls,
          logs := ("Sent duplicate notification to " ++ s.email) ::
                  ("Duplicate detected for " ++ s.project_name) ::
                  ("Processing submission for " ++ s.project_name) :: w.logs }) := by
  simp [process_submission, check_duplicate_project, World.log, hlist, hdup,
    send_duplicate_notification, hmail]

/-- The name of the main project folder (deal_processor.py line 293) and of
the duplicate-check match target. -/
def projectFolderName (s : DealSubmission) : String :=
  s.email ++ " - " ++ s.project_name

/-- Helper: full description of a run whose duplicate check misses and
whose Drive structure / upload / document calls succeed. The result
carries the three backend ids; the files, message and call-trace deltas
are explicit. -/
theorem process_submission_ok (env : Env) (cfg : Config) (s : DealSubmission)
    (dp : String) (w : World)
    (h1 : env.createFolderError = none) (h2 : env.uploadError = none)
    (h3 : env.createDocError = none) (hlist : env.listError = false)
    (hdup : duplicate_found cfg s.email s.project_name w.files = false) :
    (process_submission env cfg s dp w).1 =
      .ok ⟨env.idOf w.nextId, env.idOf (w.nextId + 4), env.idOf (w.nextId + 5), false⟩ ∧
    (process_submission env cfg s dp w).2.files =
      [⟨env.idOf (w.nextId + 5), s.email ++ " - " ++ s.project_name ++ " - KIQ_1",
        env.idOf (w.nextId + 2), false, apiCallResult env.kiqOutcome kiqFailureText⟩,
       ⟨env.idOf (w.nextId + 4),
        s.email ++ " - " ++ s.project_name ++ " - " ++ cfg.company_name ++ " Underwrite",
        env.idOf (w.nextId + 1), false,
        apiCallResult env.underwriteOutcome analysisFailureText⟩,
       ⟨env.idOf (w.nextId + 3), s.email ++ " - " ++ s.project_name ++ " - Original",
        env.idOf (w.nextId + 1), false, ""⟩,
       ⟨env.idOf (w.nextId + 2), "KIQ SUBMISSIONS", env.idOf w.nextId, true, ""⟩,
       ⟨env.idOf (w.nextId + 1), "PRE-UNDERWRITE", env.idOf w.nextId, true, ""⟩,
       ⟨env.idOf w.nextId, projectFolderName s, cfg.base_folder_id, true, ""⟩] ++ w.files ∧
    (process_submission env cfg s dp w).2.nextId = w.nextId + 6 ∧
    (process_submission env cfg s dp w).2.sent =
      (if env.internalEmailError then []
       else cfg.internal_notification_emails.map fun addr =>
         (⟨addr, "NEW DEAL SUBMITTED",
           internalBody s
             ("https://drive.google.com/drive/folders/" ++ env.idOf w.nextId)
             ("https://docs.google.com/document/d/" ++ env.idOf (w.nextId + 4))
             ("https://docs.google.com/document/d/" ++ env.idOf (w.nextId + 5))⟩ : EmailMsg))
      ++ (if env.clientEmailError then []
          else [⟨s.email, "Your " ++ cfg.company_name ++ " Deal Submission",
                 clientEmailBody cfg s
                   ("https://docs.google.com/document/d/" ++ env.idOf (w.nextId + 4))
                   ("https://docs.google.com/document/d/" ++ env.idOf (w.nextId + 5))⟩])
      ++ w.sent ∧
    (process_submission env cfg s dp w).2.calls =
      (if env.internalEmailError then []
       else cfg.internal_notification_emails.map CallEvent.sendMail)
      ++ (if env.clientEmailError then [] else [.sendMail s.email])
      ++ [.createDoc (s.email ++ " - " ++ s.project_name ++ " - KIQ_1"),
          .apiCall (kiqPrompt (apiCallResult env.underwriteOutcome analysisFailureText)),
          .createDoc (s.email ++ " - " ++ s.project_name ++ " - " ++
            cfg.company_name ++ " Underwrite"),
          .apiCall (underwritePrompt (extractResultText env.extractOutcome)),
          .extractTextCall (env.idOf (w.nextId + 3)),
          .uploadFile (s.email ++ " - " ++ s.project_name ++ " - Original")
            (env.idOf (w.nextId + 1)),
          .createFolder "KIQ SUBMISSIONS" (env.idOf w.nextId),
          .createFolder "PRE-UNDERWRITE" (env.idOf w.nextId),
          .createFolder (projectFolderName s) cfg.base_folder_id,
          .listQuery cfg.base_folder_id
            (s.email ++ "," ++ clean_text_for_search s.project_name)] ++ w.calls := by
  refine ⟨?_, ?_, ?_, ?_, ?_⟩ <;>
    simp [process_submission, check_duplicate_project, create_project_structure,
      driveCreateFolder, upload_document, extract_document_text,
      generate_underwrite_analysis, generate_kiq_questions, create_document,
      send_client_email, send_internal_notification, World.log, projectFolderName,
      h1, h2, h3, hlist, hdup, Nat.add_assoc]

/-- C4: Project-name normalization is separator-invariant: joining the same
non-empty separator-free fragments with any choice of separator runs yields
the same match key; in particular the four example spellings all normalize
to `"Alpha,Beta"`. -/
theorem c4_normalization_separator_invariant :
    (∀ (w0 : String) (rest rest' : List (String × String)),
      (w0.data ≠ [] ∧ ∀ c ∈ w0.data, isSep c = false) →
      (∀ gw ∈ rest, (gw.1.data ≠ [] ∧ ∀ c ∈ gw.1.data, isSep c = true) ∧
        (gw.2.data ≠ [] ∧ ∀ c ∈ gw.2.data, isSep c = false)) →
      (∀ gw ∈ rest', (gw.1.data ≠ [] ∧ ∀ c ∈ gw.1.data, isSep c = true) ∧
        (gw.2.data ≠ [] ∧ ∀ c ∈ gw.2.data, isSep c = false)) →
      rest.map Prod.snd = rest'.map Prod.snd →
      clean_text_for_search (joinFrags w0 rest) =
        clean_text_for_search (joinFrags w0 rest')) ∧
    clean_text_for_search "Alpha Beta" = "Alpha,Beta" ∧
    clean_text_for_search "Alpha-Beta" = "Alpha,Beta" ∧
    clean_text_for_search "Alpha.Beta" = "Alpha,Beta" ∧
    clean_text_for_search "Alpha_Beta" = "Alpha,Beta" := by
  refine ⟨?_, by decide, by decide, by decide, by decide⟩
  intro w0 rest rest' hw0 hrest hrest' hsnd
  unfold clean_text_for_search
  rw [splitSeps_joinFrags w0 rest hw0 hrest, splitSeps_joinFrags w0 rest' hw0 hrest']
  have : rest.map (fun gw => gw.2.data) = rest'.map (fun gw => gw.2.data) := by
    have h1 : rest.map (fun gw => gw.2.data) = (rest.map Prod.snd).map String.data := by
      simp [List.map_map]
    have h2 : rest'.map (fun gw => gw.2.data) = (rest'.map Prod.snd).map String.data := by
      simp [List.map_map]
    rw [h1, h2, hsnd]
  rw [this]

/-- C4 witness: the general invariance instantiated at `"Alpha"` joined to
`"Beta"` by a space and by a hyphen. -/
theorem c4_normalization_separator_invariant_witness :
    clean_text_for_search (joinFrags "Alpha" [(" ", "Beta")]) =
      clean_text_for_search (joinFrags "Alpha" [("-", "Beta")]) :=
  c4_normalization_separator_invariant.1 "Alpha" [(" ", "Beta")] [("-", "Beta")]
    (by decide) (by decide) (by decide) (by decide)

/-- Helper: whatever the environment, a run that returns a result with the
duplicate flag set returns it with all three identifiers empty. -/
theorem dup_flag_ids_empty (env : Env) (cfg : Config) (s : DealSubmission)
    (dp : String) (w : World) (r : ProcessingResult) (w' : World)
    (hrun : process_submission env cfg s dp w = (.ok r, w'))
    (hflag : r.duplicate_detected = true) :
    r.project_folder_id = "" ∧ r.underwrite_doc_id = "" ∧ r.kiq_doc_id = "" := by
  by_cases hl : env.listError <;>
    rcases h1 : env.createFolderError with _ | e1 <;>
    rcases h2 : env.uploadError with _ | e2 <;>
    rcases h3 : env.createDocError with _ | e3 <;>
    by_cases hd : duplicate_found cfg s.email s.project_name w.files <;>
      simp [process_submission, check_duplicate_project, create_project_structure,
        driveCreateFolder, upload_document, extract_document_text,
        generate_underwrite_analysis, generate_kiq_questions, create_document,
        send_client_email, send_internal_notification, send_duplicate_notification,
        World.log, hl, h1, h2, h3, hd, Prod.ext_iff] at hrun <;>
      (obtain ⟨hr, -⟩ := hrun
       subst hr
       simp_all)

/-- C3: when the duplicate check finds a match (and the duplicate-notice
send does not fail), the run returns the duplicate marker with all three
identifiers empty, sends exactly one duplicate notice to the submitter,
and performs no folder creation, upload, extraction, generation or
document creation (the call-trace delta is one list query and one send;
files and the id counter are untouched); moreover, in every run whatsoever,
a returned duplicate flag implies the three identifiers are empty. -/
theorem c3_duplicate_branch_terminal (env : Env) (cfg : Config)
    (s : DealSubmission) (dp : String) (w : World)
    (hdup : duplicate_found cfg s.email s.project_name w.files = true)
    (hlist : env.listError = false)
    (hmail : env.duplicateEmailError = false) :
    process_submission env cfg s dp w =
      (.ok ⟨"", "", "", true⟩,
        { w with
          sent := ⟨s.email,
                   "Duplicate Project Submission Detected - " ++ cfg.company_name,
                   duplicateEmailBody cfg s⟩ :: w.sent,
          calls := .sendMail s.email ::
                   .listQuery cfg.base_folder_id
                     (s.email ++ "," ++ clean_text_for_search s.project_name) :: w.calls,
          logs := ("Sent duplicate notification to " ++ s.email) ::
                  ("Duplicate detected for " ++ s.project_name) ::
                  ("Processing submission for " ++ s.project_name) :: w.logs }) ∧
    (∀ (env' : Env) (cfg' : Config) (s' : DealSubmission) (dp' : String)
        (w' : World) (r : ProcessingResult) (wOut : World),
      process_submission env' cfg' s' dp' w' = (.ok r, wOut) →
      r.duplicate_detected = true →
      r.project_folder_id = "" ∧ r.underwrite_doc_id = "" ∧ r.kiq_doc_id = "") :=
  ⟨process_submission_dup env cfg s dp w hdup hlist hmail,
   fun env' cfg' s' dp' w' r wOut hrun hflag =>
     dup_flag_ids_empty env' cfg' s' dp' w' r wOut hrun hflag⟩

/-- Backend id supply for concrete runs. -/
def ids0 : Nat → String := fun n => "id" ++ toString n

/-- Concrete configuration for witnesses. -/
def cfg0 : Config :=
  ⟨"key", "credentials.json", "BASE", "from@x.com", ["team@x.com"],
   "Acme", "Ann Lee", "Partner", "555-0100", "https://x.com/contact"⟩

/-- Concrete submission for witnesses. -/
def sub0 : DealSubmission :=
  ⟨"a@b.com", "Ada", "Foo Bar", "deck.pdf", none, none⟩

/-- Environment of a fully successful concrete run. -/
def env0 : Env :=
  { idOf := ids0,
    underwriteOutcome := .response 200 (some "THE ANALYSIS"),
    kiqOutcome := .response 200 (some "THE QUESTIONS"),
    extractOutcome := .exportOk "Deck text" }

/-- World already holding the folder a first run of `sub0` would create. -/
def wDup : World :=
  { files := [⟨"id0", "a@b.com - Foo Bar", "BASE", true, ""⟩] }

/-- C3 witness: the duplicate branch evaluated on a world holding a
matching folder. -/
theorem c3_duplicate_branch_terminal_witness :
    process_submission env0 cfg0 sub0 "deck.pdf" wDup =
      (.ok ⟨"", "", "", true⟩,
        { wDup with
          sent := ⟨sub0.email,
                   "Duplicate Project Submission Detected - " ++ cfg0.company_name,
                   duplicateEmailBody cfg0 sub0⟩ :: wDup.sent,
          calls := .sendMail sub0.email ::
                   .listQuery cfg0.base_folder_id
                     (sub0.email ++ "," ++ clean_text_for_search sub0.project_name) :: wDup.calls,
          logs := ("Sent duplicate notification to " ++ sub0.email) ::
                  ("Duplicate detected for " ++ sub0.project_name) ::
                  ("Processing submission for " ++ sub0.project_name) :: wDup.logs }) :=
  (c3_duplicate_branch_terminal env0 cfg0 sub0 "deck.pdf" wDup
    (by decide) rfl rfl).1

/-- An environment in which every Drive/Gmail call succeeds; the generation
and extraction outcomes stay arbitrary (they cannot abort a run). -/
def happyEnv (ids : Nat → String) (o1 o2 : ApiOutcome) (ex : ExtractOutcome) : Env :=
  { idOf := ids, underwriteOutcome := o1, kiqOutcome := o2, extractOutcome := ex }

/-- C1: with no pre-existing matching folder, a first run returns a
non-duplicate outcome and creates the project folder (named
`"<email> - <projectName>"` under the base folder); a second run with the
same (email, project name) pair then returns the duplicate outcome and
creates no new folders or documents (files and id counter unchanged; the
call-trace delta is one list query and one send). In particular the
duplicate-check search term built from the email and the normalized project
name matches the folder name the first run created. -/
theorem c1_duplicate_detection_idempotent
    (ids ids2 : Nat → String) (o1 o2 o1' o2' : ApiOutcome) (ex ex' : ExtractOutcome)
    (cfg : Config) (s s' : DealSubmission) (dp dp' : String) (w : World)
    (he : s'.email = s.email) (hp : s'.project_name = s.project_name)
    (hnodup : duplicate_found cfg s.email s.project_name w.files = false) :
    ∃ r1 w1,
      process_submission (happyEnv ids o1 o2 ex) cfg s dp w = (.ok r1, w1) ∧
      r1.duplicate_detected = false ∧
      (⟨ids w.nextId, projectFolderName s, cfg.base_folder_id, true, ""⟩ : DriveFile)
        ∈ w1.files ∧
      nameContains (projectFolderName s)
        (s.email ++ "," ++ clean_text_for_search s.project_name) = true ∧
      process_submission (happyEnv ids2 o1' o2' ex') cfg s' dp' w1 =
        (.ok ⟨"", "", "", true⟩,
          { w1 with
            sent := ⟨s'.email,
                     "Duplicate Project Submission Detected - " ++ cfg.company_name,
                     duplicateEmailBody cfg s'⟩ :: w1.sent,
            calls := .sendMail s'.email ::
                     .listQuery cfg.base_folder_id
                       (s'.email ++ "," ++ clean_text_for_search s'.project_name) :: w1.calls,
            logs := ("Sent duplicate notification to " ++ s'.email) ::
                    ("Duplicate detected for " ++ s'.project_name) ::
                    ("Processing submission for " ++ s'.project_name) :: w1.logs }) := by
  have hmatch : nameContains (projectFolderName s)
      (s.email ++ "," ++ clean_text_for_search s.project_name) = true := by
    unfold projectFolderName
    exact searchTerm_matches_folderName s.email s.project_name
  obtain ⟨hres, hfiles, hnext, hsent, hcalls⟩ :=
    process_submission_ok (happyEnv ids o1 o2 ex) cfg s dp w rfl rfl rfl rfl hnodup
  refine ⟨⟨ids w.nextId, ids (w.nextId + 4), ids (w.nextId + 5), false⟩,
          (process_submission (happyEnv ids o1 o2 ex) cfg s dp w).2, ?_, rfl, ?_, hmatch, ?_⟩
  · exact Prod.ext hres rfl
  · rw [hfiles]
    simp [happyEnv]
  · have hdup2 : duplicate_found cfg s'.email s'.project_name
        (process_submission (happyEnv ids o1 o2 ex) cfg s dp w).2.files = true := by
      rw [hfiles, he, hp]
      unfold duplicate_found
      rw [List.any_eq_true]
      refine ⟨⟨ids w.nextId, projectFolderName s, cfg.base_folder_id, true, ""⟩,
        by simp [happyEnv], ?_⟩
      simp [hmatch]
    exact process_submission_dup (happyEnv ids2 o1' o2' ex') cfg s' dp'
      (process_submission (happyEnv ids o1 o2 ex) cfg s dp w).2 hdup2 rfl rfl

/-- C1 witness: the idempotence statement evaluated at a concrete
submission against an empty store, resubmitted unchanged. -/
theorem c1_duplicate_detection_idempotent_witness :
    ∃ r1 w1,
      process_submission
        (happyEnv ids0 (.response 200 (some "THE ANALYSIS"))
          (.response 200 (some "THE QUESTIONS")) (.exportOk "Deck text"))
        cfg0 sub0 "deck.pdf" {} = (.ok r1, w1) ∧
      r1.duplicate_detected = false ∧
      (⟨ids0 (World.nextId {}), projectFolderName sub0, cfg0.base_folder_id, true, ""⟩ : DriveFile)
        ∈ w1.files ∧
      nameContains (projectFolderName sub0)
        (sub0.email ++ "," ++ clean_text_for_search sub0.project_name) = true ∧
      process_submission
        (happyEnv ids0 (.response 200 (some "THE ANALYSIS"))
          (.response 200 (some "THE QUESTIONS")) (.exportOk "Deck text"))
        cfg0 sub0 "deck.pdf" w1 =
        (.ok ⟨"", "", "", true⟩,
          { w1 with
            sent := ⟨sub0.email,
                     "Duplicate Project Submission Detected - " ++ cfg0.company_name,
                     duplicateEmailBody cfg0 sub0⟩ :: w1.sent,
            calls := .sendMail sub0.email ::
                     .listQuery cfg0.base_folder_id
                       (sub0.email ++ "," ++ clean_text_for_search sub0.project_name) :: w1.calls,
            logs := ("Sent duplicate notification to " ++ sub0.email) ::
                    ("Duplicate detected for " ++ sub0.project_name) ::
                    ("Processing submission for " ++ sub0.project_name) :: w1.logs }) :=
  c1_duplicate_detection_idempotent ids0 ids0
    (.response 200 (some "THE ANALYSIS")) (.response 200 (some "THE QUESTIONS"))
    (.response 200 (some "THE ANALYSIS")) (.response 200 (some "THE QUESTIONS"))
    (.exportOk "Deck text") (.exportOk "Deck text")
    cfg0 sub0 sub0 "deck.pdf" "deck.pdf" {} rfl rfl (by decide)

/-- Helper: whenever an API call fails (transport error, HTTP 4xx/5xx, or
malformed body), its result is the task's fallback placeholder. -/
theorem apiCallResult_failed (o : ApiOutcome) (fb : String)
    (h : o.failed = true) : apiCallResult o fb = fb := by
  cases o with
  | transportError => rfl
  | response status extracted =>
    by_cases hs : 400 ≤ status ∧ status < 600
    · simp [apiCallResult, hs]
    · cases extracted with
      | some text =>
        exfalso
        simp [ApiOutcome.failed, Option.isNone] at h
        exact hs ⟨h.1, h.2⟩
      | none => simp [apiCallResult, hs]

/-- Helper: a successful, well-formed API response passes its text through
verbatim. -/
theorem apiCallResult_success (status : Nat) (text fb : String)
    (h : status < 400) : apiCallResult (.response status (some text)) fb = text := by
  have : ¬ (400 ≤ status ∧ status < 600) := fun hc => absurd hc.1 (by omega)
  simp [apiCallResult, this]

/-- C2: an injected generation failure in either stage never aborts the
run: the result still carries the duplicate flag clear and three non-empty
identifiers, and the document of a failed stage carries that stage's fixed
placeholder as its body; the two placeholders are distinct. -/
theorem c2_generation_failure_never_aborts (env : Env) (cfg : Config)
    (s : DealSubmission) (dp : String) (w : World)
    (hids : ∀ n, env.idOf n ≠ "")
    (h1 : env.createFolderError = none) (h2 : env.uploadError = none)
    (h3 : env.createDocError = none) (hlist : env.listError = false)
    (hdup : duplicate_found cfg s.email s.project_name w.files = false)
    (hfail : env.underwriteOutcome.failed = true ∨ env.kiqOutcome.failed = true) :
    ∃ r w',
      process_submission env cfg s dp w = (.ok r, w') ∧
      r.duplicate_detected = false ∧
      r.project_folder_id ≠ "" ∧ r.underwrite_doc_id ≠ "" ∧ r.kiq_doc_id ≠ "" ∧
      (env.underwriteOutcome.failed = true →
        (⟨r.underwrite_doc_id,
          s.email ++ " - " ++ s.project_name ++ " - " ++ cfg.company_name ++ " Underwrite",
          env.idOf (w.nextId + 1), false, analysisFailureText⟩ : DriveFile) ∈ w'.files) ∧
      (env.kiqOutcome.failed = true →
        (⟨r.kiq_doc_id, s.email ++ " - " ++ s.project_name ++ " - KIQ_1",
          env.idOf (w.nextId + 2), false, kiqFailureText⟩ : DriveFile) ∈ w'.files) ∧
      analysisFailureText ≠ kiqFailureText := by
  obtain ⟨hres, hfiles, hnext, hsent, hcalls⟩ :=
    process_submission_ok env cfg s dp w h1 h2 h3 hlist hdup
  refine ⟨⟨env.idOf w.nextId, env.idOf (w.nextId + 4), env.idOf (w.nextId + 5), false⟩,
          (process_submission env cfg s dp w).2,
          Prod.ext hres rfl, rfl, hids _, hids _, hids _, ?_, ?_, by decide⟩
  · intro hf
    rw [hfiles]
    have hph : apiCallResult env.underwriteOutcome analysisFailureText =
        analysisFailureText := apiCallResult_failed _ _ hf
    simp [hph]
  · intro hf
    rw [hfiles]
    have hph : apiCallResult env.kiqOutcome kiqFailureText = kiqFailureText :=
      apiCallResult_failed _ _ hf
    simp [hph]

/-- C2 witness: a run with a transport failure injected into the first
generation stage. -/
theorem c2_generation_failure_never_aborts_witness :
    ∃ r w',
      process_submission
        { idOf := ids0, underwriteOutcome := .transportError,
          kiqOutcome := .response 200 (some "THE QUESTIONS"),
          extractOutcome := .exportOk "Deck text" }
        cfg0 sub0 "deck.pdf" {} = (.ok r, w') ∧
      r.duplicate_detected = false ∧
      r.project_folder_id ≠ "" ∧ r.underwrite_doc_id ≠ "" ∧ r.kiq_doc_id ≠ "" ∧
      (ApiOutcome.failed .transportError = true →
        (⟨r.underwrite_doc_id,
          sub0.email ++ " - " ++ sub0.project_name ++ " - " ++ cfg0.company_name ++ " Underwrite",
          ids0 (World.nextId {} + 1), false, analysisFailureText⟩ : DriveFile) ∈ w'.files) ∧
      (ApiOutcome.failed (.response 200 (some "THE QUESTIONS")) = true →
        (⟨r.kiq_doc_id, sub0.email ++ " - " ++ sub0.project_name ++ " - KIQ_1",
          ids0 (World.nextId {} + 2), false, kiqFailureText⟩ : DriveFile) ∈ w'.files) ∧
      analysisFailureText ≠ kiqFailureText :=
  c2_generation_failure_never_aborts
    { idOf := ids0, underwriteOutcome := .transportError,
      kiqOutcome := .response 200 (some "THE QUESTIONS"),
      extractOutcome := .exportOk "Deck text" }
    cfg0 sub0 "deck.pdf" {}
    (fun n => by
      intro h
      have hlen := congrArg String.length h
      simp [ids0, String.length_append] at hlen
      exact absurd hlen.1 (by decide))
    rfl rfl rfl rfl (by decide) (.inl rfl)

/-- C10: when the first-stage generation fails, the fixed analysis
placeholder becomes both the body of the created underwrite document and
the input interpolated into the second-stage KIQ prompt — the second stage
is invoked (an API call with exactly that prompt is traced), on the
placeholder rather than on the original document text. -/
theorem c10_placeholder_feeds_second_stage (env : Env) (cfg : Config)
    (s : DealSubmission) (dp : String) (w : World)
    (h1 : env.createFolderError = none) (h2 : env.uploadError = none)
    (h3 : env.createDocError = none) (hlist : env.listError = false)
    (hdup : duplicate_found cfg s.email s.project_name w.files = false)
    (hfail : env.underwriteOutcome.failed = true) :
    ∃ r w',
      process_submission env cfg s dp w = (.ok r, w') ∧
      (⟨r.underwrite_doc_id,
        s.email ++ " - " ++ s.project_name ++ " - " ++ cfg.company_name ++ " Underwrite",
        env.idOf (w.nextId + 1), false, analysisFailureText⟩ : DriveFile) ∈ w'.files ∧
      CallEvent.apiCall (kiqPrompt analysisFailureText) ∈ w'.calls ∧
      (∃ pre suf, kiqPrompt analysisFailureText = pre ++ analysisFailureText ++ suf) := by
  obtain ⟨hres, hfiles, hnext, hsent, hcalls⟩ :=
    process_submission_ok env cfg s dp w h1 h2 h3 hlist hdup
  have hph : apiCallResult env.underwriteOutcome analysisFailureText =
      analysisFailureText := apiCallResult_failed _ _ hfail
  refine ⟨⟨env.idOf w.nextId, env.idOf (w.nextId + 4), env.idOf (w.nextId + 5), false⟩,
          (process_submission env cfg s dp w).2, Prod.ext hres rfl, ?_, ?_, ?_⟩
  · rw [hfiles]
    simp [hph]
  · rw [hcalls, hph]
    simp
  · exact ⟨kiqPromptPre, kiqPromptMid ++ "1. " ++ mandatoryQ1 ++ "\nA:\n\n2. " ++
      mandatoryQ2 ++ "\nA:\n\n" ++ kiqPromptRest, by simp [kiqPrompt, String.append_assoc]⟩

/-- C10 witness: the placeholder-chaining statement evaluated on a concrete
run with a transport failure in the first stage. -/
theorem c10_placeholder_feeds_second_stage_witness :
    ∃ r w',
      process_submission
        { idOf := ids0, underwriteOutcome := .transportError,
          kiqOutcome := .response 200 (some "THE QUESTIONS"),
          extractOutcome := .exportOk "Deck text" }
        cfg0 sub0 "deck.pdf" {} = (.ok r, w') ∧
      (⟨r.underwrite_doc_id,
        sub0.email ++ " - " ++ sub0.project_name ++ " - " ++ cfg0.company_name ++ " Underwrite",
        ids0 (World.nextId {} + 1), false, analysisFailureText⟩ : DriveFile) ∈ w'.files ∧
      CallEvent.apiCall (kiqPrompt analysisFailureText) ∈ w'.calls ∧
      (∃ pre suf, kiqPrompt analysisFailureText = pre ++ analysisFailureText ++ suf) :=
  c10_placeholder_feeds_second_stage
    { idOf := ids0, underwriteOutcome := .transportError,
      kiqOutcome := .response 200 (some "THE QUESTIONS"),
      extractOutcome := .exportOk "Deck text" }
    cfg0 sub0 "deck.pdf" {} rfl rfl rfl rfl (by decide) rfl

/-- Environment whose second-stage generation succeeds with the well-formed
response text `"hello"` — not 15 numbered entries. -/
def envC5 : Env :=
  { idOf := ids0, underwriteOutcome := .response 200 (some "FINE ANALYSIS"),
    kiqOutcome := .response 200 (some "hello"),
    extractOutcome := .exportOk "Deck text" }

/-- C5 counterexample: a successful, well-formed generation-service output
`"hello"` is placed verbatim as the KIQ document body. The body neither
contains the first mandatory question nor is the failure placeholder, so
the claim that every second-stage output yields a body of exactly 15
numbered entries starting with the mandatory questions is false on the
code: no validation of the response takes place. -/
theorem c5_counterexample :
    (process_submission envC5 cfg0 sub0 "deck.pdf" {}).1 =
      .ok ⟨"id0", "id4", "id5", false⟩ ∧
    ((process_submission envC5 cfg0 sub0 "deck.pdf" {}).2.files.head?.map
      fun f => (f.name, f.content)) =
      some ("a@b.com - Foo Bar - KIQ_1", "hello") ∧
    ¬ (mandatoryQ1.data <:+: ("hello" : String).data) ∧
    ("hello" : String) ≠ kiqFailureText := by
  exact ⟨by rfl, by decide, by decide, by decide⟩

set_option maxRecDepth 8000 in
/-- C5 (amended): the second-stage request prompt instructs exactly 15
numbered entries beginning with the two fixed mandatory questions verbatim,
but the code does not validate the response: the KIQ document body is the
generation service's output verbatim whenever the call succeeds with a
well-formed response, and the fixed failure placeholder on transport error,
HTTP failure status, or malformed response. -/
theorem c5_kiq_body_amended (env : Env) (cfg : Config) (s : DealSubmission)
    (dp : String) (w : World)
    (h1 : env.createFolderError = none) (h2 : env.uploadError = none)
    (h3 : env.createDocError = none) (hlist : env.listError = false)
    (hdup : duplicate_found cfg s.email s.project_name w.files = false) :
    ∃ r w',
      process_submission env cfg s dp w = (.ok r, w') ∧
      (⟨r.kiq_doc_id, s.email ++ " - " ++ s.project_name ++ " - KIQ_1",
        env.idOf (w.nextId + 2), false,
        apiCallResult env.kiqOutcome kiqFailureText⟩ : DriveFile) ∈ w'.files ∧
      (env.kiqOutcome.failed = true →
        apiCallResult env.kiqOutcome kiqFailureText = kiqFailureText) ∧
      (∀ status text, env.kiqOutcome = .response status (some text) → status < 400 →
        apiCallResult env.kiqOutcome kiqFailureText = text) ∧
      (∃ pre suf, kiqPrompt (apiCallResult env.underwriteOutcome analysisFailureText) =
        pre ++ ("1. " ++ mandatoryQ1 ++ "\nA:\n\n2. " ++ mandatoryQ2 ++ "\nA:\n\n") ++ suf) ∧
      (("Generate exactly 15 due diligence questions" : String).data <:+:
        (kiqPrompt (apiCallResult env.underwriteOutcome analysisFailureText)).data) ∧
      CallEvent.apiCall (kiqPrompt (apiCallResult env.underwriteOutcome analysisFailureText))
        ∈ w'.calls := by
  obtain ⟨hres, hfiles, hnext, hsent, hcalls⟩ :=
    process_submission_ok env cfg s dp w h1 h2 h3 hlist hdup
  refine ⟨⟨env.idOf w.nextId, env.idOf (w.nextId + 4), env.idOf (w.nextId + 5), false⟩,
          (process_submission env cfg s dp w).2, Prod.ext hres rfl, ?_, ?_, ?_, ?_, ?_, ?_⟩
  · rw [hfiles]
    simp
  · exact fun hf => apiCallResult_failed _ _ hf
  · intro status text hko hst
    rw [hko]
    exact apiCallResult_success status text kiqFailureText hst
  · exact ⟨kiqPromptPre ++ apiCallResult env.underwriteOutcome analysisFailureText ++
      kiqPromptMid, kiqPromptRest, by simp [kiqPrompt, String.append_assoc]⟩
  · have hmid : ("Generate exactly 15 due diligence questions" : String).data <:+:
        kiqPromptMid.data := by decide
    have houter : kiqPromptMid.data <:+:
        (kiqPrompt (apiCallResult env.underwriteOutcome analysisFailureText)).data := by
      refine ⟨(kiqPromptPre ++ apiCallResult env.underwriteOutcome analysisFailureText).data,
        ("1. " ++ mandatoryQ1 ++ "\nA:\n\n2. " ++ mandatoryQ2 ++ "\nA:\n\n" ++
          kiqPromptRest).data, ?_⟩
      simp [kiqPrompt, String.data_append, List.append_assoc]
    exact hmid.trans houter
  · rw [hcalls]
    simp

/-- C5 witness: the amended statement evaluated on the concrete `"hello"`
run. -/
theorem c5_kiq_body_amended_witness :
    ∃ r w',
      process_submission envC5 cfg0 sub0 "deck.pdf" {} = (.ok r, w') ∧
      (⟨r.kiq_doc_id, sub0.email ++ " - " ++ sub0.project_name ++ " - KIQ_1",
        ids0 (World.nextId {} + 2), false,
        apiCallResult envC5.kiqOutcome kiqFailureText⟩ : DriveFile) ∈ w'.files ∧
      (envC5.kiqOutcome.failed = true →
        apiCallResult envC5.kiqOutcome kiqFailureText = kiqFailureText) ∧
      (∀ status text, envC5.kiqOutcome = .response status (some text) → status < 400 →
        apiCallResult envC5.kiqOutcome kiqFailureText = text) ∧
      (∃ pre suf, kiqPrompt (apiCallResult envC5.underwriteOutcome analysisFailureText) =
        pre ++ ("1. " ++ mandatoryQ1 ++ "\nA:\n\n2. " ++ mandatoryQ2 ++ "\nA:\n\n") ++ suf) ∧
      (("Generate exactly 15 due diligence questions" : String).data <:+:
        (kiqPrompt (apiCallResult envC5.underwriteOutcome analysisFailureText)).data) ∧
      CallEvent.apiCall (kiqPrompt (apiCallResult envC5.underwriteOutcome analysisFailureText))
        ∈ w'.calls :=
  c5_kiq_body_amended envC5 cfg0 sub0 "deck.pdf" {} rfl rfl rfl rfl (by decide)

/-- Environment in which structure creation raises the raw Drive error
`"quota exceeded"`. -/
def envC6 : Env :=
  { idOf := ids0, underwriteOutcome := .response 200 (some "A"),
    kiqOutcome := .response 200 (some "Q"),
    extractOutcome := .exportOk "T",
    createFolderError := some "quota exceeded" }

/-- C6 counterexample: on a structure-creation failure,
`process_submission` propagates the collaborator's raw error verbatim —
the claimed `PipelineError` wrapper does not exist in the code, and the
propagated error carries no stage identity (neither a stage word nor a
wrapper name occurs in it). -/
theorem c6_counterexample :
    (process_submission envC6 cfg0 sub0 "deck.pdf" {}).1 = .error "quota exceeded" ∧
    ¬ (("structure" : String).data <:+: ("quota exceeded" : String).data) ∧
    ¬ (("stage" : String).data <:+: ("quota exceeded" : String).data) ∧
    ¬ (("PipelineError" : String).data <:+: ("quota exceeded" : String).data) := by
  exact ⟨by rfl, by decide, by decide, by decide⟩

/-- C6 (amended): on an unrecoverable collaborator error during structure
creation, upload, or document creation, `process_submission` re-raises the
collaborator's raw error unchanged; the failing stage's identity is
recorded only in the log (a stage-specific `Failed to ...` entry plus the
final `Failed to process submission` entry), not carried on the propagated
error. -/
theorem c6_raw_error_propagation_amended (env : Env) (cfg : Config)
    (s : DealSubmission) (dp : String) (w : World) (e : String)
    (hlist : env.listError = false)
    (hdup : duplicate_found cfg s.email s.project_name w.files = false) :
    (env.createFolderError = some e →
      (process_submission env cfg s dp w).1 = .error e ∧
      ("Failed to create project structure: " ++ e)
        ∈ (process_submission env cfg s dp w).2.logs ∧
      ("Failed to process submission: " ++ e)
        ∈ (process_submission env cfg s dp w).2.logs) ∧
    (env.createFolderError = none → env.uploadError = some e →
      (process_submission env cfg s dp w).1 = .error e ∧
      ("Failed to upload document: " ++ e)
        ∈ (process_submission env cfg s dp w).2.logs ∧
      ("Failed to process submission: " ++ e)
        ∈ (process_submission env cfg s dp w).2.logs) ∧
    (env.createFolderError = none → env.uploadError = none →
      env.createDocError = some e →
      (process_submission env cfg s dp w).1 = .error e ∧
      ("Failed to create document: " ++ e)
        ∈ (process_submission env cfg s dp w).2.logs ∧
      ("Failed to process submission: " ++ e)
        ∈ (process_submission env cfg s dp w).2.logs) := by
  refine ⟨fun hcf => ?_, fun hcf hup => ?_, fun hcf hup hcd => ?_⟩ <;>
    refine ⟨?_, ?_, ?_⟩ <;>
      simp [process_submission, check_duplicate_project, create_project_structure,
        driveCreateFolder, upload_document, extract_document_text,
        generate_underwrite_analysis, generate_kiq_questions, create_document,
        World.log, hlist, hdup, *]

/-- C6 witness: the amended statement's structure-creation branch evaluated
on the concrete `"quota exceeded"` run. -/
theorem c6_raw_error_propagation_amended_witness :
    (process_submission envC6 cfg0 sub0 "deck.pdf" {}).1 = .error "quota exceeded" ∧
    ("Failed to create project structure: " ++ "quota exceeded")
      ∈ (process_submission envC6 cfg0 sub0 "deck.pdf" {}).2.logs ∧
    ("Failed to process submission: " ++ "quota exceeded")
      ∈ (process_submission envC6 cfg0 sub0 "deck.pdf" {}).2.logs :=
  (c6_raw_error_propagation_amended envC6 cfg0 sub0 "deck.pdf" {} "quota exceeded"
    rfl (by decide)).1 rfl

/-- C7: injected failures of any notification send (client email, internal
notification, duplicate notice) leave the returned result of
`process_submission` exactly as it would be with the sends succeeding, and
each send function catches its failure, only logging it. -/
theorem c7_notification_failure_isolated (env : Env) (cfg : Config)
    (s : DealSubmission) (dp : String) (w : World) (b1 b2 b3 : Bool) :
    (process_submission
        { env with clientEmailError := b1, internalEmailError := b2,
                   duplicateEmailError := b3 } cfg s dp w).1 =
      (process_submission env cfg s dp w).1 ∧
    (∀ ul kl w0, send_client_email { env with clientEmailError := true } cfg s ul kl w0 =
      w0.log "Failed to send client email") ∧
    (∀ pl ul kl w0, send_internal_notification { env with internalEmailError := true }
        cfg s pl ul kl w0 = w0.log "Failed to send internal notification") ∧
    (∀ w0, send_duplicate_notification { env with duplicateEmailError := true } cfg s w0 =
      w0.log "Failed to send duplicate notification") := by
  refine ⟨?_, fun ul kl w0 => by simp [send_client_email, World.log],
    fun pl ul kl w0 => by simp [send_internal_notification, World.log],
    fun w0 => by simp [send_duplicate_notification, World.log]⟩
  by_cases hl : env.listError <;>
    rcases h1 : env.createFolderError with _ | e1 <;>
    rcases h2 : env.uploadError with _ | e2 <;>
    rcases h3 : env.createDocError with _ | e3 <;>
    by_cases hd : duplicate_found cfg s.email s.project_name w.files <;>
      simp [process_submission, check_duplicate_project, create_project_structure,
        driveCreateFolder, upload_document, extract_document_text,
        generate_underwrite_analysis, generate_kiq_questions, create_document,
        send_client_email, send_internal_notification, send_duplicate_notification,
        World.log, hl, h1, h2, h3, hd]

/-- Helper: an infix of `b` is an infix of `a ++ b ++ c`, at the
character-data level. -/
theorem data_infix_extend (x a b c : String) (h : x.data <:+: b.data) :
    x.data <:+: (a ++ b ++ c).data := by
  obtain ⟨s, t, hst⟩ := h
  exact ⟨a.data ++ s, t ++ c.data,
    by simp only [String.data_append, ← hst, List.append_assoc]⟩

/-- Helper: an infix of `b` is an infix of `a ++ b`, at the character-data
level. -/
theorem data_infix_appendL (x a b : String) (h : x.data <:+: b.data) :
    x.data <:+: (a ++ b).data := by
  obtain ⟨s, t, hst⟩ := h
  exact ⟨a.data ++ s, t, by simp only [String.data_append, ← hst, List.append_assoc]⟩

/-- Helper: every member of a string list occurs in its Python `repr`. -/
theorem mem_data_infix_pyReprInner (x : String) :
    ∀ l : List String, x ∈ l → x.data <:+: (pyReprInner l).data := by
  intro l
  induction l with
  | nil => intro hx; cases hx
  | cons s rest ih =>
    intro hx
    rcases List.mem_cons.mp hx with hx | hx
    · subst hx
      match rest with
      | [] =>
        exact ⟨pySq.data, pySq.data, by simp [pyReprInner, String.data_append, List.append_assoc]⟩
      | r :: rs =>
        exact ⟨pySq.data, (pySq ++ ", " ++ pyReprInner (r :: rs)).data,
          by simp [pyReprInner, String.data_append, List.append_assoc]⟩
    · have hrest := ih hx
      match rest, hx with
      | r :: rs, _ =>
        have : pyReprInner (s :: r :: rs) =
            (pySq ++ s ++ pySq ++ ", ") ++ pyReprInner (r :: rs) := by
          simp [pyReprInner, String.append_assoc]
        rw [this]
        exact data_infix_appendL x _ _ hrest

/-- Helper: every missing key is named inside the `ValueError` message. -/
theorem mem_data_infix_missingMsg (x : String) (l : List String) (hx : x ∈ l) :
    x.data <:+: (missingMsg l).data := by
  unfold missingMsg pyStrListRepr
  exact data_infix_appendL x _ _
    (data_infix_extend x "[" (pyReprInner l) "]" (mem_data_infix_pyReprInner x l hx))

/-- C8: if any required key (generation-service credential, storage root
identifier, sender address) is missing or empty after environment
overrides, `load_config` fails with the `ValueError` message that names
every missing key (so `DealProcessor.__init__` constructs nothing and no
run begins); with all three present and the optional display keys absent
from the file, loading succeeds with the stated defaults. -/
theorem c8_config_required_keys (ev : EnvVars) (cf : ConfigFile) :
    (missingKeys ev cf ≠ [] →
      load_config ev (some cf) = .error (missingMsg (missingKeys ev cf)) ∧
      ∀ k ∈ requiredKeys, falsyOpt (requiredValue ev cf k) = true →
        k.data <:+: (missingMsg (missingKeys ev cf)).data) ∧
    (missingKeys ev cf = [] →
      ∃ c, load_config ev (some cf) = .ok c ∧
        c.anthropic_api_key = (requiredValue ev cf "anthropic_api_key").getD "" ∧
        c.base_folder_id = (requiredValue ev cf "base_folder_id").getD "" ∧
        c.from_email = (requiredValue ev cf "from_email").getD "" ∧
        falsyOpt (requiredValue ev cf "anthropic_api_key") = false ∧
        falsyOpt (requiredValue ev cf "base_folder_id") = false ∧
        falsyOpt (requiredValue ev cf "from_email") = false ∧
        (cf.internal_notification_emails = none → c.internal_notification_emails = []) ∧
        (cf.company_name = none → c.company_name = "Your Company") ∧
        (cf.signature_name = none → c.signature_name = "Your Name") ∧
        (cf.signature_title = none → c.signature_title = "Your Title") ∧
        (cf.phone_number = none → c.phone_number = "Your Phone Number") ∧
        (cf.support_url = none → c.support_url = "https://your-website.com/contact")) := by
  constructor
  · intro hne
    constructor
    · cases hm : missingKeys ev cf with
      | nil => exact absurd hm hne
      | cons x xs => simp [load_config, hm]
    · intro k hk hf
      exact mem_data_infix_missingMsg k (missingKeys ev cf)
        (List.mem_filter.mpr ⟨hk, hf⟩)
  · intro hm
    have hfal : ∀ k ∈ requiredKeys, falsyOpt (requiredValue ev cf k) = false := by
      intro k hk
      have := List.filter_eq_nil.mp hm k hk
      simpa using this
    have heq : load_config ev (some cf) = .ok
        { anthropic_api_key := (requiredValue ev cf "anthropic_api_key").getD ""
          google_credentials_path :=
            (envOverride ev.google_credentials_path
              (some (cf.google_credentials_path.getD "credentials.json"))).getD ""
          base_folder_id := (requiredValue ev cf "base_folder_id").getD ""
          from_email := (requiredValue ev cf "from_email").getD ""
          internal_notification_emails := cf.internal_notification_emails.getD []
          company_name := cf.company_name.getD "Your Company"
          signature_name := cf.signature_name.getD "Your Name"
          signature_title := cf.signature_title.getD "Your Title"
          phone_number := cf.phone_number.getD "Your Phone Number"
          support_url := cf.support_url.getD "https://your-website.com/contact" } := by
      simp [load_config, hm]
    refine ⟨_, heq, rfl, rfl, rfl,
      hfal "anthropic_api_key" (by simp [requiredKeys]),
      hfal "base_folder_id" (by simp [requiredKeys]),
      hfal "from_email" (by simp [requiredKeys]),
      fun h => by simp [h], fun h => by simp [h], fun h => by simp [h],
      fun h => by simp [h], fun h => by simp [h], fun h => by simp [h]⟩

/-- Environment variables supplying all three required keys. -/
def evOk : EnvVars :=
  { anthropic_api_key := some "key", base_folder_id := some "BASE",
    from_email := some "from@x.com" }

/-- C8 witness: the failure branch evaluated with nothing configured (all
three keys missing, each named in the message), and the success branch
evaluated with the three keys supplied via the environment over an empty
file (all defaults). -/
theorem c8_config_required_keys_witness :
    (load_config {} (some {}) = .error (missingMsg (missingKeys {} {})) ∧
      ("anthropic_api_key" : String).data <:+: (missingMsg (missingKeys {} {})).data ∧
      ("base_folder_id" : String).data <:+: (missingMsg (missingKeys {} {})).data ∧
      ("from_email" : String).data <:+: (missingMsg (missingKeys {} {})).data) ∧
    (∃ c, load_config evOk (some {}) = .ok c ∧
      c.anthropic_api_key = (requiredValue evOk {} "anthropic_api_key").getD "" ∧
      c.base_folder_id = (requiredValue evOk {} "base_folder_id").getD "" ∧
      c.from_email = (requiredValue evOk {} "from_email").getD "" ∧
      falsyOpt (requiredValue evOk {} "anthropic_api_key") = false ∧
      falsyOpt (requiredValue evOk {} "base_folder_id") = false ∧
      falsyOpt (requiredValue evOk {} "from_email") = false ∧
      (ConfigFile.internal_notification_emails {} = none → c.internal_notification_emails = []) ∧
      (ConfigFile.company_name {} = none → c.company_name = "Your Company") ∧
      (ConfigFile.signature_name {} = none → c.signature_name = "Your Name") ∧
      (ConfigFile.signature_title {} = none → c.signature_title = "Your Title") ∧
      (ConfigFile.phone_number {} = none → c.phone_number = "Your Phone Number") ∧
      (ConfigFile.support_url {} = none → c.support_url = "https://your-website.com/contact")) := by
  constructor
  · obtain ⟨herr, hnames⟩ := (c8_config_required_keys {} {}).1 (by decide)
    exact ⟨herr, hnames "anthropic_api_key" (by decide) (by decide),
      hnames "base_folder_id" (by decide) (by decide),
      hnames "from_email" (by decide) (by decide)⟩
  · exact (c8_config_required_keys evOk {}).2 (by decide)

/-- C9: a successful run sends the submitter a client email built with
exactly the links `https://docs.google.com/document/d/<U1>` and
`https://docs.google.com/document/d/<K1>`, and each configured internal
addressee a notification built with exactly those two links and
`https://drive.google.com/drive/folders/<F1>`, where F1, U1 and K1 are the
three identifiers the run returns. -/
theorem c9_link_formats (env : Env) (cfg : Config) (s : DealSubmission)
    (dp : String) (w : World)
    (h1 : env.createFolderError = none) (h2 : env.uploadError = none)
    (h3 : env.createDocError = none) (hlist : env.listError = false)
    (hdup : duplicate_found cfg s.email s.project_name w.files = false)
    (hclient : env.clientEmailError = false)
    (hinternal : env.internalEmailError = false)
    (a : String) (rest : List String)
    (haddr : cfg.internal_notification_emails = a :: rest) :
    ∃ w',
      process_submission env cfg s dp w =
        (.ok ⟨env.idOf w.nextId, env.idOf (w.nextId + 4), env.idOf (w.nextId + 5), false⟩,
          w') ∧
      (⟨s.email, "Your " ++ cfg.company_name ++ " Deal Submission",
        clientEmailBody cfg s
          ("https://docs.google.com/document/d/" ++ env.idOf (w.nextId + 4))
          ("https://docs.google.com/document/d/" ++ env.idOf (w.nextId + 5))⟩ : EmailMsg)
        ∈ w'.sent ∧
      (⟨a, "NEW DEAL SUBMITTED",
        internalBody s
          ("https://drive.google.com/drive/folders/" ++ env.idOf w.nextId)
          ("https://docs.google.com/document/d/" ++ env.idOf (w.nextId + 4))
          ("https://docs.google.com/document/d/" ++ env.idOf (w.nextId + 5))⟩ : EmailMsg)
        ∈ w'.sent := by
  obtain ⟨hres, hfiles, hnext, hsent, hcalls⟩ :=
    process_submission_ok env cfg s dp w h1 h2 h3 hlist hdup
  refine ⟨(process_submission env cfg s dp w).2, Prod.ext hres rfl, ?_, ?_⟩
  · rw [hsent]
    simp [hclient, hinternal]
  · rw [hsent]
    simp [hclient, hinternal, haddr]

/-- C9 witness: the link-format statement evaluated on the fully
successful concrete run. -/
theorem c9_link_formats_witness :
    ∃ w',
      process_submission env0 cfg0 sub0 "deck.pdf" {} =
        (.ok ⟨ids0 (World.nextId {}), ids0 (World.nextId {} + 4),
              ids0 (World.nextId {} + 5), false⟩, w') ∧
      (⟨sub0.email, "Your " ++ cfg0.company_name ++ " Deal Submission",
        clientEmailBody cfg0 sub0
          ("https://docs.google.com/document/d/" ++ ids0 (World.nextId {} + 4))
          ("https://docs.google.com/document/d/" ++ ids0 (World.nextId {} + 5))⟩ : EmailMsg)
        ∈ w'.sent ∧
      (⟨"team@x.com", "NEW DEAL SUBMITTED",
        internalBody sub0
          ("https://drive.google.com/drive/folders/" ++ ids0 (World.nextId {}))
          ("https://docs.google.com/document/d/" ++ ids0 (World.nextId {} + 4))
          ("https://docs.google.com/document/d/" ++ ids0 (World.nextId {} + 5))⟩ : EmailMsg)
        ∈ w'.sent :=
  c9_link_formats env0 cfg0 sub0 "deck.pdf" {} rfl rfl rfl rfl (by decide)
    rfl rfl "team@x.com" [] rfl
